import Mathlib

/-!
# Verification of the SimpleWeatherApp core (API client + location store)

Shallow embedding of the core components of the SimpleWeatherApp repository:

* `WeatherStackClient` (src/src/weather_app/api/weather_client.py): input
  validation, rate limiting, TTL caching, provider-response parsing.
* `LocationStorage` (src/src/weather_app/storage/location_storage.py):
  JSON-file-backed store of locations keyed by ZIP code.

Modelling conventions:

* Python `dict`s are association lists with Python's insertion-order
  semantics: updating an existing key keeps its position, a new key is
  appended at the end.
* Wall-clock time (`time.time()`, float seconds) is modelled by `ℚ`.
  A call to `get_weather` starts at an explicit time `t`; `time.sleep`
  advances the clock; the HTTP request takes an explicit duration.
* JSON values are the inductive `Json` below, with numbers as `ℚ`
  (no floating-point rounding is relevant to any property proved here).
* Exceptions are explicit result constructors / `Except` values.  The
  Python exception classes map to the spec taxonomy:
  `ValueError` on bad input → ValidationError, `ValueError` at
  construction → ConfigurationError, `ValueError` on an error payload →
  ProviderError, `KeyError` from parsing → MalformedResponseError,
  `json.JSONDecodeError`/`IOError` → StorageError,
  `KeyError` from `set_favorite` → NotFoundError.
-/

namespace WeatherApp

/-- JSON values.  Numbers are modelled by `ℚ`. -/
inductive Json where
  | null : Json
  | bool (b : Bool) : Json
  | num (q : ℚ) : Json
  | str (s : String) : Json
  | arr (elems : List Json) : Json
  | obj (fields : List (String × Json)) : Json

/-- Python-dict lookup on an association list: first binding wins
(bindings are unique under `dictInsert`/`dictDelete`). -/
def dictGet {α : Type} (d : List (String × α)) (k : String) : Option α :=
  match d with
  | [] => none
  | (k', v) :: rest => if k' = k then some v else dictGet rest k

/-- Python-dict update `d[k] = v`: an existing key keeps its position and
gets the new value; a fresh key is appended at the end. -/
def dictInsert {α : Type} (d : List (String × α)) (k : String) (v : α) :
    List (String × α) :=
  match d with
  | [] => [(k, v)]
  | (k', v') :: rest =>
      if k' = k then (k', v) :: rest else (k', v') :: dictInsert rest k v

/-- Python-dict deletion `del d[k]`. -/
def dictDelete {α : Type} (d : List (String × α)) (k : String) :
    List (String × α) :=
  d.filter (fun p => p.1 ≠ k)

/-- Field lookup in a JSON object (`'k' in data` / `data['k']` on a dict);
`none` when the value is not an object or the key is absent. -/
def Json.get? (j : Json) (k : String) : Option Json :=
  match j with
  | .obj fields => dictGet fields k
  | _ => none

/-- A character `c` is an ASCII digit. -/
def isAsciiDigit (c : Char) : Bool :=
  decide (c.val ≥ 48) && decide (c.val ≤ 57)

/-- Character predicate of Python `str.isnumeric`: true when the character
has a Unicode `Numeric_Type` of Decimal, Digit or Numeric.  The model lists
the code-point ranges exercised in this development (ASCII digits,
superscripts and vulgar fractions from Latin-1, Arabic-Indic and Extended
Arabic-Indic digits, Devanagari digits, Roman numerals, circled numbers and
fullwidth digits); the real predicate holds of further ranges, every one of
them outside ASCII, so the containments proved below are faithful. -/
def pyCharIsNumeric (c : Char) : Bool :=
  (isAsciiDigit c) ||
  (decide (c.val = 178) || decide (c.val = 179) || decide (c.val = 185)) ||
  (decide (c.val ≥ 188) && decide (c.val ≤ 190)) ||
  (decide (c.val ≥ 0x660) && decide (c.val ≤ 0x669)) ||
  (decide (c.val ≥ 0x6F0) && decide (c.val ≤ 0x6F9)) ||
  (decide (c.val ≥ 0x966) && decide (c.val ≤ 0x96F)) ||
  (decide (c.val ≥ 0x2160) && decide (c.val ≤ 0x2182)) ||
  (decide (c.val ≥ 0x2460) && decide (c.val ≤ 0x2473)) ||
  (decide (c.val ≥ 0xFF10) && decide (c.val ≤ 0xFF19))

/-- Python `s.isnumeric()`: non-empty and every character numeric. -/
def pyIsNumeric (s : String) : Bool :=
  (s != "") && s.toList.all pyCharIsNumeric

/-- `WeatherStackClient._validate_zip_code` (weather_client.py:186-197):
`bool(zip_code and len(zip_code) == 5 and zip_code.isnumeric())`. -/
def validateZipCode (zipCode : String) : Bool :=
  (zipCode != "") && (zipCode.length == 5) && pyIsNumeric zipCode

/-- `LocationStorage._validate_zip_code` (location_storage.py:257-268);
its body is character-for-character the same as the client's validator. -/
def LocationStorage.validateZipCode (zipCode : String) : Bool :=
  (zipCode != "") && (zipCode.length == 5) && pyIsNumeric zipCode

/-- Python `str.strip()`: remove leading and trailing whitespace. -/
def pyStrip (s : String) : String :=
  String.mk (((s.toList.dropWhile Char.isWhitespace).reverse.dropWhile
    Char.isWhitespace).reverse)

/-- `WeatherStackClient._validate_api_key` (weather_client.py:177-184):
`bool(self.api_key and len(self.api_key) >= 32)`, applied to the already
stripped key. -/
def validateApiKey (apiKey : String) : Bool :=
  (apiKey != "") && decide (32 ≤ apiKey.length)

/-- Structured weather data (`WeatherData` dataclass, weather_client.py:23-45).
`location_name`, `description` and `icon_url` are stored as the raw JSON
values, exactly as Python stores them without conversion; `timestamp` is the
epoch value passed to `datetime.fromtimestamp`. -/
structure WeatherData where
  temperature : ℚ
  location_name : Json
  description : Json
  humidity : ℤ
  wind_speed : ℚ
  icon_url : Json
  timestamp : ℚ
  zip_code : String

/-- Exceptions that can escape the `try` block of `_parse_weather_data`:
`KeyError` (with the missing key), `IndexError` (from `[0]` on an empty
list) and `TypeError` (indexing or `float`/`fromtimestamp` on a value of
the wrong shape; not caught by the `except (KeyError, IndexError)`). -/
inductive ParseErr where
  | keyError (field : String) : ParseErr
  | indexError : ParseErr
  | typeError : ParseErr

/-- `data[k]` on a JSON value: `KeyError k` when the key is absent from an
object, `TypeError` when the value is not an object. -/
def jsonIndex (j : Json) (k : String) : Except ParseErr Json :=
  match j with
  | .obj fields =>
      match dictGet fields k with
      | some v => .ok v
      | none => .error (.keyError k)
  | _ => .error .typeError

/-- `xs[0]` on a JSON value: `IndexError` on an empty array, `TypeError`
on a non-array. -/
def jsonFirst (j : Json) : Except ParseErr Json :=
  match j with
  | .arr (x :: _) => .ok x
  | .arr [] => .error .indexError
  | _ => .error .typeError

/-- Python `float(x)` on a JSON value (numbers pass through, booleans
become 0/1, anything else raises; string parsing is not exercised by any
property proved here). -/
def pyFloat (j : Json) : Except ParseErr ℚ :=
  match j with
  | .num q => .ok q
  | .bool b => .ok (if b then 1 else 0)
  | _ => .error .typeError

/-- Python `int(x)` on a JSON value: truncation toward zero. -/
def pyInt (j : Json) : Except ParseErr ℤ :=
  match j with
  | .num q => .ok (q.num.tdiv (q.den : ℤ))
  | .bool b => .ok (if b then 1 else 0)
  | _ => .error .typeError

/-- Body of the `try` in `_parse_weather_data` (weather_client.py:256-269),
with Python's left-to-right evaluation of the constructor arguments. -/
def parseWeatherTry (zipCode : String) (data : Json) :
    Except ParseErr WeatherData := do
  let current ← jsonIndex data "current"
  let location ← jsonIndex data "location"
  let temperature ← pyFloat (← jsonIndex current "temperature")
  let location_name ← jsonIndex location "name"
  let description ← jsonFirst (← jsonIndex current "weather_descriptions")
  let humidity ← pyInt (← jsonIndex current "humidity")
  let wind_speed ← pyFloat (← jsonIndex current "wind_speed")
  let icon_url ← jsonFirst (← jsonIndex current "weather_icons")
  let timestamp ← pyFloat (← jsonIndex location "localtime_epoch")
  return { temperature, location_name, description, humidity, wind_speed,
           icon_url, timestamp, zip_code := zipCode }

/-- Outcome of a `get_weather` call, naming the raised exception when the
call does not return.  `malformedResponse` carries the text interpolated
into `KeyError("Missing required data in API response: ...")`: the name of
the missing key, or Python's message for an `IndexError`. -/
inductive WeatherResult where
  | ok (w : WeatherData) : WeatherResult
  | validationError (zipCode : String) : WeatherResult
  | providerError (info : Json) : WeatherResult
  | malformedResponse (detail : String) : WeatherResult
  | typeError : WeatherResult
  | timeoutError : WeatherResult
  | networkError : WeatherResult

/-- `_parse_weather_data` (weather_client.py:242-272): the `try` body with
`KeyError`/`IndexError` re-raised as the `KeyError` whose message names the
missing data; a `TypeError` escapes unwrapped. -/
def parseWeatherData (zipCode : String) (data : Json) : WeatherResult :=
  match parseWeatherTry zipCode data with
  | .ok w => .ok w
  | .error (.keyError field) => .malformedResponse field
  | .error .indexError => .malformedResponse "list index out of range"
  | .error .typeError => .typeError

/-- Mutable state of a `WeatherStackClient` (fields set in `__init__`,
weather_client.py:59-87).  `base_url`, `request_timeout` and the HTTP
session are transport-level and not touched by any property proved here. -/
structure ClientState where
  api_key : String
  cache_timeout : ℚ
  last_request_time : ℚ
  min_request_interval : ℚ
  weather_cache : List (String × Json)
  cache_timestamps : List (String × ℚ)

/-- `WeatherStackClient.__init__` (weather_client.py:59-87): strip the key,
reject it unless `_validate_api_key` passes (`ValueError`, i.e. the spec's
ConfigurationError), otherwise initialise an empty cache, a zero
last-request time and a 1-second minimum request interval. -/
def initClient (apiKey : String) (cacheTimeout : ℚ) :
    Except String ClientState :=
  let key := pyStrip apiKey
  if validateApiKey key then
    .ok { api_key := key, cache_timeout := cacheTimeout,
          last_request_time := 0, min_request_interval := 1,
          weather_cache := [], cache_timestamps := [] }
  else
    .error "Invalid API key format"

/-- `_apply_rate_limit` (weather_client.py:199-209) entered at time `t`:
returns the time at which the call resumes (after `time.sleep` of the
remaining interval, when the last network request was less than
`min_request_interval` ago). -/
def applyRateLimit (st : ClientState) (t : ℚ) : ℚ :=
  if 0 < st.last_request_time then
    if t - st.last_request_time < st.min_request_interval then
      t + (st.min_request_interval - (t - st.last_request_time))
    else t
  else t

/-- `_get_cached_weather` (weather_client.py:211-229) at time `t`: a hit
while `now - timestamp < cache_timeout`; an expired entry is deleted from
both dicts (lazy eviction) and reported as a miss. -/
def getCachedWeather (st : ClientState) (zipCode : String) (t : ℚ) :
    Option Json × ClientState :=
  match dictGet st.weather_cache zipCode with
  | some data =>
      let ts := (dictGet st.cache_timestamps zipCode).getD 0
      if t - ts < st.cache_timeout then (some data, st)
      else
        (none,
         { st with
            weather_cache := dictDelete st.weather_cache zipCode,
            cache_timestamps := dictDelete st.cache_timestamps zipCode })
  | none => (none, st)

/-- `_cache_weather` (weather_client.py:231-240) at time `t`. -/
def cacheWeather (st : ClientState) (zipCode : String) (data : Json)
    (t : ℚ) : ClientState :=
  { st with
      weather_cache := dictInsert st.weather_cache zipCode data,
      cache_timestamps := dictInsert st.cache_timestamps zipCode t }

/-- What the transport layer does for the (at most one) HTTP GET of a
`get_weather` call: time out (`requests.Timeout`), fail
(`requests.RequestException`, including a non-2xx status raised by
`raise_for_status`), or deliver a JSON body. -/
inductive NetOutcome where
  | timeout : NetOutcome
  | failure : NetOutcome
  | success (body : Json) : NetOutcome

/-- Everything observable about one `get_weather` call: its outcome, the
client state it leaves behind, whether it issued a network request, and how
long it slept in the rate limiter. -/
structure CallResult where
  result : WeatherResult
  state : ClientState
  madeRequest : Bool
  sleepTime : ℚ

/-- The `info` field of the error payload, defaulting to the fixed text
"Unknown error occurred" (`error_info.get`, weather_client.py:159). -/
def errorInfo (e : Json) : Json :=
  match e with
  | .obj fields => (dictGet fields "info").getD (.str "Unknown error occurred")
  | _ => e

/-- `get_weather` (weather_client.py:99-175), started at time `t`, with the
transport behaving as `net` and the HTTP round-trip taking `reqDur`
seconds.  Mirrors the source order: validate the ZIP, apply the rate limit,
only then consult the cache; on a miss issue the request; an `error` field
raises `ValueError` (ProviderError) before anything is cached; otherwise
the raw body is cached and the last-request time updated *before* parsing,
whose exceptions propagate with the cache already populated. -/
def getWeather (st : ClientState) (zipCode : String) (t : ℚ)
    (net : NetOutcome) (reqDur : ℚ) : CallResult :=
  if validateZipCode zipCode then
    let u := applyRateLimit st t
    let lookup := getCachedWeather st zipCode u
    match lookup.1 with
    | some data =>
        { result := parseWeatherData zipCode data, state := lookup.2,
          madeRequest := false, sleepTime := u - t }
    | none =>
        match net with
        | .timeout =>
            { result := .timeoutError, state := lookup.2,
              madeRequest := true, sleepTime := u - t }
        | .failure =>
            { result := .networkError, state := lookup.2,
              madeRequest := true, sleepTime := u - t }
        | .success body =>
            match body.get? "error" with
            | some e =>
                { result := .providerError (errorInfo e), state := lookup.2,
                  madeRequest := true, sleepTime := u - t }
            | none =>
                let done := u + reqDur
                let st1 := cacheWeather lookup.2 zipCode body done
                let st2 := { st1 with last_request_time := done }
                { result := parseWeatherData zipCode body, state := st2,
                  madeRequest := true, sleepTime := u - t }
  else
    { result := .validationError zipCode, state := st,
      madeRequest := false, sleepTime := 0 }

/-- One stored location (the value written by `add_location`,
location_storage.py:114-118).  `added_at` is the timestamp whose ISO-8601
rendering `datetime.now().isoformat()` the code stores; the rendering is
injective, so the timestamp itself stands for the string. -/
structure LocEntry where
  name : String
  added_at : ℚ
  is_favorite : Bool

/-- In-memory state of a `LocationStorage`: `self.locations`, a Python dict
from ZIP code to entry. -/
abbrev LocMap := List (String × LocEntry)

/-- Contents of the storage file as seen through `json.load`.  The store
itself only ever writes `json.dump(self.locations)`, which round-trips, so
a well-formed file is modelled by the map it encodes; a present file whose
text is not valid JSON is `empty` (a zero-byte file — invalid JSON) or
`invalid` (any other non-JSON text). -/
inductive FileData where
  | missing : FileData
  | empty : FileData
  | invalid : FileData
  | value (locs : LocMap) : FileData

/-- Exceptions of the storage component: `ValueError` on bad input
(ValidationError), `IOError`/`json.JSONDecodeError` (StorageError),
`KeyError` from `set_favorite` (NotFoundError). -/
inductive StoreErr where
  | validationError (msg : String) : StoreErr
  | storageError : StoreErr
  | notFoundError (zipCode : String) : StoreErr

/-- `LocationStorage.__init__` / `_load_locations`
(location_storage.py:32-70): a missing file leaves `self.locations` at the
initial `{}`; an existing file is `json.load`ed, and a `JSONDecodeError`
(raised both by a zero-byte file and by any other invalid JSON) is logged
and re-raised. -/
def initStorage (file : FileData) : Except StoreErr LocMap :=
  match file with
  | .missing => .ok []
  | .empty => .error .storageError
  | .invalid => .error .storageError
  | .value locs => .ok locs

/-- `add_location` (location_storage.py:92-124) at time `now`: validate the
ZIP and the name before any mutation, then unconditionally overwrite the
entry with `{name, added_at := now, is_favorite := false}` and persist the
whole map.  Returns the in-memory map and the file alongside the Python
return value, so that the pre-raise states are observable. -/
def addLocation (locs : LocMap) (file : FileData) (zipCode name : String)
    (now : ℚ) : Except StoreErr Bool × LocMap × FileData :=
  if LocationStorage.validateZipCode zipCode then
    if name = "" then
      (.error (.validationError "Location name must be a non-empty string"),
       locs, file)
    else
      let locs1 := dictInsert locs zipCode
        { name := name, added_at := now, is_favorite := false }
      (.ok true, locs1, .value locs1)
  else
    (.error (.validationError zipCode), locs, file)

/-- `remove_location` (location_storage.py:126-153): `false` without a
write when the key is absent, delete-and-persist otherwise. -/
def removeLocation (locs : LocMap) (file : FileData) (zipCode : String) :
    Except StoreErr Bool × LocMap × FileData :=
  if LocationStorage.validateZipCode zipCode then
    match dictGet locs zipCode with
    | some _ =>
        let locs1 := dictDelete locs zipCode
        (.ok true, locs1, .value locs1)
    | none => (.ok false, locs, file)
  else
    (.error (.validationError zipCode), locs, file)

/-- `set_favorite` (location_storage.py:198-227): `ValueError` on a bad
ZIP, `KeyError` (NotFoundError) when the key is not stored — both before
any mutation — otherwise update only the `is_favorite` field of the entry
and persist. -/
def setFavorite (locs : LocMap) (file : FileData) (zipCode : String)
    (isFavorite : Bool) : Except StoreErr Bool × LocMap × FileData :=
  if LocationStorage.validateZipCode zipCode then
    match dictGet locs zipCode with
    | none => (.error (.notFoundError zipCode), locs, file)
    | some entry =>
        let locs1 := dictInsert locs zipCode
          { entry with is_favorite := isFavorite }
        (.ok true, locs1, .value locs1)
  else
    (.error (.validationError zipCode), locs, file)

/-- `get_locations` (location_storage.py:155-162):
`list(self.locations.keys())` in insertion order. -/
def getLocations (locs : LocMap) : List String :=
  locs.map Prod.fst

/-- `get_favorite_locations` (location_storage.py:243-255). -/
def getFavoriteLocations (locs : LocMap) : List (String × String) :=
  (locs.filter (fun p => p.2.is_favorite)).map (fun p => (p.1, p.2.name))

end WeatherApp

namespace WeatherApp

/-! ## Association-list (Python dict) lemmas -/

theorem dictGet_insert_self {α : Type} (d : List (String × α)) (k : String)
    (v : α) : dictGet (dictInsert d k v) k = some v := by
  induction d with
  | nil => simp [dictInsert, dictGet]
  | cons p rest ih =>
      by_cases h : p.1 = k <;> simp [dictInsert, dictGet, h, ih]

theorem dictGet_insert_ne {α : Type} (d : List (String × α)) (k w : String)
    (v : α) (h : w ≠ k) : dictGet (dictInsert d k v) w = dictGet d w := by
  induction d with
  | nil => simp [dictInsert, dictGet, Ne.symm h]
  | cons p rest ih =>
      obtain ⟨k', v'⟩ := p
      by_cases hk : k' = k
      · simp [dictInsert, dictGet, hk, Ne.symm h]
      · by_cases hw : k' = w <;> simp [dictInsert, dictGet, hk, hw, h, ih]

theorem dictGet_delete_self {α : Type} (d : List (String × α)) (k : String) :
    dictGet (dictDelete d k) k = none := by
  induction d with
  | nil => simp [dictDelete, dictGet]
  | cons p rest ih =>
      obtain ⟨k', v'⟩ := p
      by_cases h : k' = k
      · simpa [dictDelete, List.filter_cons, h] using ih
      · simpa [dictDelete, List.filter_cons, dictGet, h] using ih

theorem dictGet_delete_ne {α : Type} (d : List (String × α)) (k w : String)
    (h : w ≠ k) : dictGet (dictDelete d k) w = dictGet d w := by
  induction d with
  | nil => simp [dictDelete, dictGet]
  | cons p rest ih =>
      obtain ⟨k', v'⟩ := p
      by_cases hk : k' = k
      · simpa [dictDelete, List.filter_cons, dictGet, hk, Ne.symm h] using ih
      · by_cases hw : k' = w
        · simp [dictDelete, List.filter_cons, dictGet, hk, hw, h]
        · simpa [dictDelete, List.filter_cons, dictGet, hk, hw, h] using ih

theorem mem_getLocations_dictInsert (locs : LocMap) (z : String)
    (v : LocEntry) : z ∈ getLocations (dictInsert locs z v) := by
  induction locs with
  | nil => simp [dictInsert, getLocations]
  | cons p rest ih =>
      obtain ⟨k', v'⟩ := p
      by_cases h : k' = z
      · simp [dictInsert, getLocations, h]
      · simp only [dictInsert, getLocations, h, if_false, List.map_cons,
          List.mem_cons]
        exact Or.inr (by simpa [getLocations] using ih)

/-! ## C3: ZIP validation -/

/-- C3: the claim states that validation accepts exactly the strings of
five ASCII digits.  Both validators instead call Python `str.isnumeric`,
which also accepts non-ASCII numeric characters: the five-character string
of Arabic-Indic digits `U+0660` is accepted although none of its characters
is an ASCII digit. -/
theorem c3_counterexample :
    validateZipCode (String.mk (List.replicate 5 (Char.ofNat 0x660))) = true ∧
    LocationStorage.validateZipCode
      (String.mk (List.replicate 5 (Char.ofNat 0x660))) = true ∧
    ¬ (∀ c ∈ (String.mk (List.replicate 5 (Char.ofNat 0x660))).toList,
        isAsciiDigit c = true) := by
  refine ⟨by decide, by decide, ?_⟩
  intro h
  have := h (Char.ofNat 0x660) (by decide)
  simp [isAsciiDigit] at this

/-- C3 (amended): both ZIP validators (the client's and the store's, which
have identical bodies) accept `s` iff `s` has length 5 and every character
is numeric in the sense of Python `str.isnumeric` — a strict superset of
the ASCII digits — and every rejected string makes `get_weather`,
`add_location`, `remove_location` and `set_favorite` fail with
ValidationError. -/
theorem c3_zip_validation_amended (s : String) :
    (validateZipCode s = true ↔
      s.length = 5 ∧ ∀ c ∈ s.toList, pyCharIsNumeric c = true) ∧
    LocationStorage.validateZipCode s = validateZipCode s ∧
    (∀ c : Char, isAsciiDigit c = true → pyCharIsNumeric c = true) ∧
    (validateZipCode s = false →
      (∀ st t net d, (getWeather st s t net d).result = .validationError s) ∧
      (∀ locs file n now, (addLocation locs file s n now).1 =
          .error (.validationError s) ∨
        (addLocation locs file s n now).1 =
          .error (.validationError "Location name must be a non-empty string")) ∧
      (∀ locs file, (removeLocation locs file s).1 =
        .error (.validationError s)) ∧
      (∀ locs file b, (setFavorite locs file s b).1 =
        .error (.validationError s))) := by
  have hsame : LocationStorage.validateZipCode s = validateZipCode s := rfl
  refine ⟨?_, hsame, ?_, ?_⟩
  · constructor
    · intro h
      simp only [validateZipCode, pyIsNumeric, Bool.and_eq_true, bne_iff_ne,
        ne_eq, beq_iff_eq, List.all_eq_true] at h
      exact ⟨h.1.2, h.2.2⟩
    · rintro ⟨h5, hall⟩
      have hne : s ≠ "" := by
        intro he
        rw [he] at h5
        simp at h5
      simp only [validateZipCode, pyIsNumeric, Bool.and_eq_true, bne_iff_ne,
        ne_eq, beq_iff_eq, List.all_eq_true]
      exact ⟨⟨hne, h5⟩, hne, hall⟩
  · intro c h
    simp [pyCharIsNumeric, h]
  · intro h
    refine ⟨?_, ?_, ?_, ?_⟩
    · intro st t net d
      simp [getWeather, h]
    · intro locs file n now
      left
      simp [addLocation, hsame, h]
    · intro locs file
      simp [removeLocation, hsame, h]
    · intro locs file b
      simp [setFavorite, hsame, h]

/-- Witness for C3 at `s = "12 34"` (rejected: a space is not numeric). -/
theorem c3_witness :
    (validateZipCode "12 34" = true ↔
      ("12 34" : String).length = 5 ∧
      ∀ c ∈ ("12 34" : String).toList, pyCharIsNumeric c = true) ∧
    LocationStorage.validateZipCode "12 34" = validateZipCode "12 34" ∧
    (∀ c : Char, isAsciiDigit c = true → pyCharIsNumeric c = true) ∧
    (validateZipCode "12 34" = false →
      (∀ st t net d,
        (getWeather st "12 34" t net d).result = .validationError "12 34") ∧
      (∀ locs file n now, (addLocation locs file "12 34" n now).1 =
          .error (.validationError "12 34") ∨
        (addLocation locs file "12 34" n now).1 =
          .error (.validationError "Location name must be a non-empty string")) ∧
      (∀ locs file, (removeLocation locs file "12 34").1 =
        .error (.validationError "12 34")) ∧
      (∀ locs file b, (setFavorite locs file "12 34" b).1 =
        .error (.validationError "12 34"))) :=
  c3_zip_validation_amended "12 34"

/-! ## C4: client construction -/

/-- C4: the claim states construction fails exactly on an empty credential.
The code requires at least 32 characters after stripping
(`_validate_api_key`): the non-empty credential `"a"` is rejected. -/
theorem c4_counterexample :
    ("a" : String) ≠ "" ∧
    initClient "a" 300 = .error "Invalid API key format" := by
  exact ⟨by decide, rfl⟩

/-- C4 (amended): construction succeeds iff the stripped credential has at
least 32 characters (so every shorter credential — the empty one included —
fails with ConfigurationError, and every credential that strips to 32 or
more characters succeeds). -/
theorem c4_construction_amended (apiKey : String) (cacheTimeout : ℚ) :
    ((∃ st, initClient apiKey cacheTimeout = .ok st) ↔
      32 ≤ (pyStrip apiKey).length) ∧
    (¬ 32 ≤ (pyStrip apiKey).length →
      initClient apiKey cacheTimeout = .error "Invalid API key format") := by
  have hiff : validateApiKey (pyStrip apiKey) = true ↔
      32 ≤ (pyStrip apiKey).length := by
    simp only [validateApiKey, Bool.and_eq_true, bne_iff_ne, ne_eq,
      decide_eq_true_eq]
    constructor
    · exact fun h => h.2
    · intro h
      refine ⟨fun he => ?_, h⟩
      rw [he] at h
      simp at h
  constructor
  · constructor
    · rintro ⟨st, hst⟩
      by_contra hlen
      have : validateApiKey (pyStrip apiKey) = false := by
        cases hv : validateApiKey (pyStrip apiKey)
        · rfl
        · exact absurd (hiff.mp hv) hlen
      simp [initClient, this] at hst
    · intro h
      have hv : validateApiKey (pyStrip apiKey) = true := hiff.mpr h
      simp only [initClient, hv, if_true]
      exact ⟨_, rfl⟩
  · intro h
    have : validateApiKey (pyStrip apiKey) = false := by
      cases hv : validateApiKey (pyStrip apiKey)
      · rfl
      · exact absurd (hiff.mp hv) h
    simp [initClient, this]

/-- Witness for C4 at a 32-character credential. -/
theorem c4_witness :
    ((∃ st, initClient (String.mk (List.replicate 32 'a')) 300 = .ok st) ↔
      32 ≤ (pyStrip (String.mk (List.replicate 32 'a'))).length) ∧
    (¬ 32 ≤ (pyStrip (String.mk (List.replicate 32 'a'))).length →
      initClient (String.mk (List.replicate 32 'a')) 300 =
        .error "Invalid API key format") :=
  c4_construction_amended (String.mk (List.replicate 32 'a')) 300

/-! ## C5: store construction -/

/-- C5: the claim states that an existing-but-empty file yields an empty
store.  `json.load` on a zero-byte file raises `JSONDecodeError`, which
`_load_locations` re-raises, so an empty file fails with StorageError
instead of yielding an empty store. -/
theorem c5_counterexample :
    initStorage .empty = .error .storageError ∧
    initStorage .empty ≠ .ok [] := by
  exact ⟨rfl, by simp [initStorage]⟩

/-- C5 (amended): a missing file yields an empty store; a file that exists
but is empty fails with StorageError (empty text is invalid JSON), exactly
as any other invalid-JSON file does; an intact file yields the store it
encodes. -/
theorem c5_storage_init_amended :
    initStorage .missing = .ok [] ∧
    initStorage .empty = .error .storageError ∧
    initStorage .invalid = .error .storageError ∧
    ∀ locs, initStorage (.value locs) = .ok locs := by
  exact ⟨rfl, rfl, rfl, fun _ => rfl⟩

/-! ## Client lemmas -/

theorem applyRateLimit_ge (st : ClientState) (t : ℚ) :
    t ≤ applyRateLimit st t := by
  unfold applyRateLimit
  split
  · split
    · next h => linarith
    · exact le_refl t
  · exact le_refl t

theorem getCachedWeather_absent (st : ClientState) (z : String) (u : ℚ)
    (h : dictGet st.weather_cache z = none) :
    getCachedWeather st z u = (none, st) := by
  simp [getCachedWeather, h]

theorem getCachedWeather_valid (st : ClientState) (z : String) (u : ℚ)
    (data : Json) (h : dictGet st.weather_cache z = some data)
    (hts : u - (dictGet st.cache_timestamps z).getD 0 < st.cache_timeout) :
    getCachedWeather st z u = (some data, st) := by
  simp [getCachedWeather, h, hts]

theorem getCachedWeather_expired (st : ClientState) (z : String) (u : ℚ)
    (data : Json) (h : dictGet st.weather_cache z = some data)
    (hts : st.cache_timeout ≤ u - (dictGet st.cache_timestamps z).getD 0) :
    getCachedWeather st z u =
      (none,
       { st with weather_cache := dictDelete st.weather_cache z,
                 cache_timestamps := dictDelete st.cache_timestamps z }) := by
  simp [getCachedWeather, h, not_lt.mpr hts]

theorem getCachedWeather_hit_state (st : ClientState) (z : String) (u : ℚ)
    (data : Json) (h : (getCachedWeather st z u).1 = some data) :
    (getCachedWeather st z u).2 = st := by
  cases hd : dictGet st.weather_cache z with
  | none => rw [getCachedWeather_absent st z u hd]
  | some d' =>
      by_cases hts :
          u - (dictGet st.cache_timestamps z).getD 0 < st.cache_timeout
      · rw [getCachedWeather_valid st z u d' hd hts]
      · rw [getCachedWeather_expired st z u d' hd (not_lt.mp hts)] at h
        simp at h

theorem getCachedWeather_none_cache (st : ClientState) (z : String) (u : ℚ)
    (h : (getCachedWeather st z u).1 = none) :
    dictGet (getCachedWeather st z u).2.weather_cache z = none := by
  cases hd : dictGet st.weather_cache z with
  | none => rw [getCachedWeather_absent st z u hd]; exact hd
  | some d' =>
      by_cases hts :
          u - (dictGet st.cache_timestamps z).getD 0 < st.cache_timeout
      · rw [getCachedWeather_valid st z u d' hd hts] at h
        simp at h
      · rw [getCachedWeather_expired st z u d' hd (not_lt.mp hts)]
        exact dictGet_delete_self st.weather_cache z

theorem getCachedWeather_cache_timeout (st : ClientState) (z : String)
    (u : ℚ) : (getCachedWeather st z u).2.cache_timeout = st.cache_timeout := by
  cases hd : dictGet st.weather_cache z with
  | none => rw [getCachedWeather_absent st z u hd]
  | some d' =>
      by_cases hts :
          u - (dictGet st.cache_timestamps z).getD 0 < st.cache_timeout
      · rw [getCachedWeather_valid st z u d' hd hts]
      · rw [getCachedWeather_expired st z u d' hd (not_lt.mp hts)]

theorem getWeather_hit (st : ClientState) (z : String) (t d : ℚ)
    (net : NetOutcome) (data : Json) (hz : validateZipCode z = true)
    (hhit : (getCachedWeather st z (applyRateLimit st t)).1 = some data) :
    getWeather st z t net d =
      { result := parseWeatherData z data, state := st,
        madeRequest := false, sleepTime := applyRateLimit st t - t } := by
  have hst := getCachedWeather_hit_state st z (applyRateLimit st t) data hhit
  simp [getWeather, hz, hhit, hst]

theorem getWeather_miss_timeout (st : ClientState) (z : String) (t d : ℚ)
    (hz : validateZipCode z = true)
    (hmiss : (getCachedWeather st z (applyRateLimit st t)).1 = none) :
    getWeather st z t .timeout d =
      { result := .timeoutError,
        state := (getCachedWeather st z (applyRateLimit st t)).2,
        madeRequest := true, sleepTime := applyRateLimit st t - t } := by
  simp [getWeather, hz, hmiss]

theorem getWeather_miss_failure (st : ClientState) (z : String) (t d : ℚ)
    (hz : validateZipCode z = true)
    (hmiss : (getCachedWeather st z (applyRateLimit st t)).1 = none) :
    getWeather st z t .failure d =
      { result := .networkError,
        state := (getCachedWeather st z (applyRateLimit st t)).2,
        madeRequest := true, sleepTime := applyRateLimit st t - t } := by
  simp [getWeather, hz, hmiss]

theorem getWeather_miss_provider (st : ClientState) (z : String) (t d : ℚ)
    (body e : Json) (hz : validateZipCode z = true)
    (hmiss : (getCachedWeather st z (applyRateLimit st t)).1 = none)
    (herr : body.get? "error" = some e) :
    getWeather st z t (.success body) d =
      { result := .providerError (errorInfo e),
        state := (getCachedWeather st z (applyRateLimit st t)).2,
        madeRequest := true, sleepTime := applyRateLimit st t - t } := by
  simp [getWeather, hz, hmiss, herr]

theorem getWeather_miss_success (st : ClientState) (z : String) (t d : ℚ)
    (body : Json) (hz : validateZipCode z = true)
    (hmiss : (getCachedWeather st z (applyRateLimit st t)).1 = none)
    (herr : body.get? "error" = none) :
    getWeather st z t (.success body) d =
      { result := parseWeatherData z body,
        state :=
          { (getCachedWeather st z (applyRateLimit st t)).2 with
              weather_cache :=
                dictInsert (getCachedWeather st z (applyRateLimit st t)).2.weather_cache
                  z body,
              cache_timestamps :=
                dictInsert
                  (getCachedWeather st z (applyRateLimit st t)).2.cache_timestamps
                  z (applyRateLimit st t + d),
              last_request_time := applyRateLimit st t + d },
        madeRequest := true, sleepTime := applyRateLimit st t - t } := by
  simp [getWeather, hz, hmiss, herr, cacheWeather]

theorem applyRateLimit_sub_lt (st : ClientState) (t M : ℚ)
    (hub : t - st.last_request_time < M)
    (hmin : st.min_request_interval < M) :
    applyRateLimit st t - st.last_request_time < M := by
  unfold applyRateLimit
  split
  · split
    · linarith
    · exact hub
  · exact hub

theorem applyRateLimit_of_ge (st : ClientState) (t : ℚ)
    (h : st.min_request_interval ≤ t - st.last_request_time) :
    applyRateLimit st t = t := by
  unfold applyRateLimit
  split
  · rw [if_neg (not_lt.mpr h)]
  · rfl

/-- A call on a client with no cache entry at all for `z` (neither valid
nor expired): the request body is cached at the completion time, which
also becomes the last-request time. -/
theorem getWeather_fresh_success (st : ClientState) (z : String) (t d : ℚ)
    (body : Json) (hz : validateZipCode z = true)
    (hnotin : dictGet st.weather_cache z = none)
    (herr : body.get? "error" = none) :
    getWeather st z t (.success body) d =
      { result := parseWeatherData z body,
        state :=
          { st with
              weather_cache := dictInsert st.weather_cache z body,
              cache_timestamps :=
                dictInsert st.cache_timestamps z (applyRateLimit st t + d),
              last_request_time := applyRateLimit st t + d },
        madeRequest := true, sleepTime := applyRateLimit st t - t } := by
  rw [getWeather_miss_success st z t d body hz
    (by rw [getCachedWeather_absent st z _ hnotin]) herr,
    getCachedWeather_absent st z _ hnotin]

theorem getCachedWeather_other (st : ClientState) (z : String) (u : ℚ)
    (k : String) (hk : k ≠ z) :
    dictGet (getCachedWeather st z u).2.weather_cache k =
      dictGet st.weather_cache k ∧
    dictGet (getCachedWeather st z u).2.cache_timestamps k =
      dictGet st.cache_timestamps k := by
  cases hd : dictGet st.weather_cache z with
  | none => rw [getCachedWeather_absent st z u hd]; exact ⟨rfl, rfl⟩
  | some data =>
      by_cases hts :
          u - (dictGet st.cache_timestamps z).getD 0 < st.cache_timeout
      · rw [getCachedWeather_valid st z u data hd hts]; exact ⟨rfl, rfl⟩
      · rw [getCachedWeather_expired st z u data hd (not_lt.mp hts)]
        exact ⟨dictGet_delete_ne _ z k hk, dictGet_delete_ne _ z k hk⟩

/-- No `get_weather` call for key `z` ever touches the cache entry of a
different key `k`: eviction happens only lazily, at a lookup of the
expired key itself. -/
theorem getWeather_other_keys (st : ClientState) (z : String) (t d : ℚ)
    (net : NetOutcome) (k : String) (hk : k ≠ z) :
    dictGet (getWeather st z t net d).state.weather_cache k =
      dictGet st.weather_cache k ∧
    dictGet (getWeather st z t net d).state.cache_timestamps k =
      dictGet st.cache_timestamps k := by
  by_cases hz : validateZipCode z = true
  · rcases hcw : (getCachedWeather st z (applyRateLimit st t)).1 with _ | data
    · have hoth := getCachedWeather_other st z (applyRateLimit st t) k hk
      cases net with
      | timeout => rw [getWeather_miss_timeout st z t d hz hcw]; exact hoth
      | failure => rw [getWeather_miss_failure st z t d hz hcw]; exact hoth
      | success body =>
          rcases he : body.get? "error" with _ | e
          · rw [getWeather_miss_success st z t d body hz hcw he]
            constructor
            · show dictGet (dictInsert
                (getCachedWeather st z (applyRateLimit st t)).2.weather_cache
                z body) k = dictGet st.weather_cache k
              rw [dictGet_insert_ne _ z k _ hk]
              exact hoth.1
            · show dictGet (dictInsert
                (getCachedWeather st z (applyRateLimit st t)).2.cache_timestamps
                z (applyRateLimit st t + d)) k = dictGet st.cache_timestamps k
              rw [dictGet_insert_ne _ z k _ hk]
              exact hoth.2
          · rw [getWeather_miss_provider st z t d body e hz hcw he]
            exact hoth
    · rw [getWeather_hit st z t d net data hz hcw]
      exact ⟨rfl, rfl⟩
  · have hzf : validateZipCode z = false := by
      cases h : validateZipCode z
      · rfl
      · exact absurd h hz
    simp [getWeather, hzf]

/-! ## Concrete client data for witnesses and counterexamples -/

/-- A 32-character credential (the shortest the client accepts). -/
def sampleKey : String := String.mk (List.replicate 32 'a')

/-- The client state produced by a successful construction with
`sampleKey` and the default 300-second cache timeout. -/
def freshClient : ClientState :=
  { api_key := sampleKey, cache_timeout := 300, last_request_time := 0,
    min_request_interval := 1, weather_cache := [], cache_timestamps := [] }

theorem initClient_sampleKey : initClient sampleKey 300 = .ok freshClient := by
  rfl

/-- A complete provider response (the spec's §8 scenario). -/
def fullBody : Json :=
  .obj [("location",
          .obj [("name", .str "New York"), ("region", .str "NY"),
                ("localtime_epoch", .num 1700000000)]),
        ("current",
          .obj [("temperature", .num 72),
                ("weather_descriptions", .arr [.str "Clear"]),
                ("humidity", .num 40), ("wind_speed", .num 5),
                ("weather_icons", .arr [.str "http://x/i.png"])])]

/-- The reading `_parse_weather_data` extracts from `fullBody`. -/
def fullReading : WeatherData :=
  { temperature := 72, location_name := .str "New York",
    description := .str "Clear", humidity := 40, wind_speed := 5,
    icon_url := .str "http://x/i.png", timestamp := 1700000000,
    zip_code := "12345" }

theorem parse_fullBody : parseWeatherTry "12345" fullBody = .ok fullReading := by
  rfl

/-- An HTTP-success body whose `current` object has no `temperature`. -/
def bodyMissingTemp : Json :=
  .obj [("location", .obj [("name", .str "Test City")]),
        ("current", .obj [("humidity", .num 40)])]

/-- A provider-level error body. -/
def errorBody : Json :=
  .obj [("error", .obj [("code", .num 101), ("info", .str "API Error")])]

/-- A client that fetched `"12345"` over the network at time 100 (so both
the cache entry and the last-request timestamp read 100). -/
def clientAfterFetch : ClientState :=
  { api_key := sampleKey, cache_timeout := 300, last_request_time := 100,
    min_request_interval := 1,
    weather_cache := [("12345", fullBody)],
    cache_timestamps := [("12345", 100)] }

/-! ## C7: provider-level error payload -/

/-- C7: on a cache miss, an HTTP-success body containing an `error` field
makes `get_weather` raise `ValueError` (ProviderError) carrying the
payload's `info` message (or the fixed fallback text when `info` is
absent), a network request having been made, and the cache entry for that
ZIP stays unpopulated — the raise happens before `_cache_weather`. -/
theorem c7_provider_error (st : ClientState) (z : String) (t d : ℚ)
    (body e : Json) (hz : validateZipCode z = true)
    (hmiss : (getCachedWeather st z (applyRateLimit st t)).1 = none)
    (herr : body.get? "error" = some e) :
    (getWeather st z t (.success body) d).result =
      .providerError (errorInfo e) ∧
    (getWeather st z t (.success body) d).madeRequest = true ∧
    dictGet (getWeather st z t (.success body) d).state.weather_cache z =
      none ∧
    (∀ m, e.get? "info" = some m → errorInfo e = m) := by
  rw [getWeather_miss_provider st z t d body e hz hmiss herr]
  refine ⟨rfl, rfl,
    getCachedWeather_none_cache st z (applyRateLimit st t) hmiss, ?_⟩
  intro m hm
  cases e with
  | obj fields =>
      simp only [Json.get?] at hm
      simp [errorInfo, hm]
  | null => simp [Json.get?] at hm
  | bool b => simp [Json.get?] at hm
  | num q => simp [Json.get?] at hm
  | str s => simp [Json.get?] at hm
  | arr xs => simp [Json.get?] at hm

/-- Witness for C7: a fresh client, ZIP `"12345"`, and the provider error
body with `info` message `"API Error"`. -/
theorem c7_witness :
    (getWeather freshClient "12345" 10 (.success errorBody) 0).result =
      .providerError (errorInfo (.obj [("code", .num 101),
        ("info", .str "API Error")])) ∧
    (getWeather freshClient "12345" 10 (.success errorBody) 0).madeRequest =
      true ∧
    dictGet (getWeather freshClient "12345" 10
        (.success errorBody) 0).state.weather_cache "12345" = none ∧
    (∀ m, Json.get? (.obj [("code", .num 101), ("info", .str "API Error")])
        "info" = some m →
      errorInfo (.obj [("code", .num 101), ("info", .str "API Error")]) =
        m) :=
  c7_provider_error freshClient "12345" 10 0 errorBody
    (.obj [("code", .num 101), ("info", .str "API Error")])
    (by decide) rfl rfl

/-! ## C2: cache hit still throttled -/

theorem clientAfterFetch_rate : applyRateLimit clientAfterFetch 100 = 101 := by
  norm_num [applyRateLimit, clientAfterFetch]

theorem clientAfterFetch_hit :
    (getCachedWeather clientAfterFetch "12345"
      (applyRateLimit clientAfterFetch 100)).1 = some fullBody := by
  have hts : dictGet clientAfterFetch.cache_timestamps "12345" =
      some 100 := rfl
  rw [clientAfterFetch_rate,
    getCachedWeather_valid clientAfterFetch "12345" 101 fullBody rfl
      (by rw [hts]; norm_num [clientAfterFetch])]

/-- C2: the claim states a cache hit does not wait on the rate-limit
throttle.  `get_weather` calls `_apply_rate_limit` *before*
`_get_cached_weather`: with a valid cache entry for `"12345"` and a last
network request at time 100, a call at time 100 sleeps a full second (the
remaining interval) before returning the cached data without a request. -/
theorem c2_counterexample :
    (getWeather clientAfterFetch "12345" 100 .failure 0).madeRequest =
      false ∧
    (getWeather clientAfterFetch "12345" 100 .failure 0).sleepTime = 1 ∧
    (getWeather clientAfterFetch "12345" 100 .failure 0).result =
      .ok fullReading := by
  rw [getWeather_hit clientAfterFetch "12345" 100 0 .failure fullBody
    (by decide) clientAfterFetch_hit, clientAfterFetch_rate]
  refine ⟨rfl, by norm_num, ?_⟩
  rw [show parseWeatherData "12345" fullBody = .ok fullReading from rfl]

/-- C2 (amended): with a non-expired cache entry at lookup time, the call
performs no network request, leaves the client state unchanged and returns
the parse of the cached response — but the rate limit is applied before
the cache lookup, so the call still sleeps for the remaining interval
whenever the last network request was less than `min_request_interval`
ago. -/
theorem c2_cache_hit_amended (st : ClientState) (z : String) (t d : ℚ)
    (net : NetOutcome) (data : Json) (hz : validateZipCode z = true)
    (hhit : (getCachedWeather st z (applyRateLimit st t)).1 = some data) :
    (getWeather st z t net d).result = parseWeatherData z data ∧
    (getWeather st z t net d).madeRequest = false ∧
    (getWeather st z t net d).state = st ∧
    (getWeather st z t net d).sleepTime = applyRateLimit st t - t ∧
    (0 < st.last_request_time →
      t - st.last_request_time < st.min_request_interval →
      (getWeather st z t net d).sleepTime =
        st.min_request_interval - (t - st.last_request_time)) := by
  rw [getWeather_hit st z t d net data hz hhit]
  refine ⟨rfl, rfl, rfl, rfl, ?_⟩
  intro h1 h2
  simp only [applyRateLimit, if_pos h1, if_pos h2]
  ring

/-- Witness for C2 at the post-fetch client state. -/
theorem c2_witness :
    (getWeather clientAfterFetch "12345" 100 .failure 0).result =
      parseWeatherData "12345" fullBody ∧
    (getWeather clientAfterFetch "12345" 100 .failure 0).madeRequest =
      false ∧
    (getWeather clientAfterFetch "12345" 100 .failure 0).state =
      clientAfterFetch ∧
    (getWeather clientAfterFetch "12345" 100 .failure 0).sleepTime =
      applyRateLimit clientAfterFetch 100 - 100 ∧
    (0 < clientAfterFetch.last_request_time →
      100 - clientAfterFetch.last_request_time <
        clientAfterFetch.min_request_interval →
      (getWeather clientAfterFetch "12345" 100 .failure 0).sleepTime =
        clientAfterFetch.min_request_interval -
          (100 - clientAfterFetch.last_request_time)) :=
  c2_cache_hit_amended clientAfterFetch "12345" 100 0 .failure fullBody
    (by decide) clientAfterFetch_hit

/-! ## C1: malformed response is cached before the parse failure -/

/-- The client state after the malformed fetch at time 10. -/
def clientAfterMalformed : ClientState :=
  { api_key := sampleKey, cache_timeout := 300, last_request_time := 10,
    min_request_interval := 1,
    weather_cache := [("12345", bodyMissingTemp)],
    cache_timestamps := [("12345", 10)] }

theorem freshClient_rate (t : ℚ) : applyRateLimit freshClient t = t := by
  norm_num [applyRateLimit, freshClient]

theorem c1_first_call :
    getWeather freshClient "12345" 10 (.success bodyMissingTemp) 0 =
      { result := .malformedResponse "temperature",
        state := clientAfterMalformed, madeRequest := true,
        sleepTime := 0 } := by
  have habs : getCachedWeather freshClient "12345"
      (applyRateLimit freshClient 10) = (none, freshClient) :=
    getCachedWeather_absent freshClient "12345" _ rfl
  rw [getWeather_miss_success freshClient "12345" 10 0 bodyMissingTemp
    (by decide) (by rw [habs]) rfl, habs, freshClient_rate]
  rw [show parseWeatherData "12345" bodyMissingTemp =
    .malformedResponse "temperature" from rfl]
  norm_num [CallResult.mk.injEq, ClientState.mk.injEq, freshClient,
    clientAfterMalformed, dictInsert]

theorem c1_second_call :
    getWeather clientAfterMalformed "12345" 20 .failure 0 =
      { result := .malformedResponse "temperature",
        state := clientAfterMalformed, madeRequest := false,
        sleepTime := 0 } := by
  have hrate : applyRateLimit clientAfterMalformed 20 = 20 := by
    norm_num [applyRateLimit, clientAfterMalformed]
  have hts : dictGet clientAfterMalformed.cache_timestamps "12345" =
      some 10 := rfl
  have hhit : (getCachedWeather clientAfterMalformed "12345"
      (applyRateLimit clientAfterMalformed 20)).1 = some bodyMissingTemp := by
    rw [hrate, getCachedWeather_valid clientAfterMalformed "12345" 20
      bodyMissingTemp rfl (by rw [hts]; norm_num [clientAfterMalformed])]
  rw [getWeather_hit clientAfterMalformed "12345" 20 0 .failure
    bodyMissingTemp (by decide) hhit, hrate]
  rw [show parseWeatherData "12345" bodyMissingTemp =
    .malformedResponse "temperature" from rfl]
  norm_num [CallResult.mk.injEq]

/-- C1: the claim states a malformed HTTP-success response does not
populate the cache.  `get_weather` calls `_cache_weather` *before*
`_parse_weather_data`: a body with no `current.temperature` raises
`KeyError` naming `temperature`, the raw body sits in the cache, and a
second call for the same ZIP 10 seconds later makes no network request —
it re-raises the same error from the cached body. -/
theorem c1_counterexample :
    (getWeather freshClient "12345" 10 (.success bodyMissingTemp) 0).result =
      .malformedResponse "temperature" ∧
    dictGet (getWeather freshClient "12345" 10
        (.success bodyMissingTemp) 0).state.weather_cache "12345" =
      some bodyMissingTemp ∧
    (getWeather (getWeather freshClient "12345" 10
        (.success bodyMissingTemp) 0).state "12345" 20 .failure 0).madeRequest =
      false ∧
    (getWeather (getWeather freshClient "12345" 10
        (.success bodyMissingTemp) 0).state "12345" 20 .failure 0).result =
      .malformedResponse "temperature" := by
  rw [c1_first_call]
  rw [c1_second_call]
  exact ⟨rfl, rfl, rfl, rfl⟩

/-- C1 (amended): a cache-miss HTTP success without an `error` field whose
parse fails on a missing key `f` raises `MalformedResponseError` naming
`f`, but the cache entry for that ZIP *is* populated with the raw body
(timestamped with the request's completion time, which also becomes the
last-request time), so any later call whose throttled lookup falls inside
the TTL makes no network request and raises the same error again. -/
theorem c1_malformed_caches_amended (st : ClientState) (z : String)
    (t d : ℚ) (body : Json) (f : String) (hz : validateZipCode z = true)
    (hmiss : (getCachedWeather st z (applyRateLimit st t)).1 = none)
    (herr : body.get? "error" = none)
    (hparse : parseWeatherTry z body = .error (.keyError f)) :
    (getWeather st z t (.success body) d).result = .malformedResponse f ∧
    dictGet (getWeather st z t
        (.success body) d).state.weather_cache z = some body ∧
    dictGet (getWeather st z t
        (.success body) d).state.cache_timestamps z =
      some (applyRateLimit st t + d) ∧
    (getWeather st z t (.success body) d).state.last_request_time =
      applyRateLimit st t + d ∧
    (∀ t2 net2 d2,
      applyRateLimit (getWeather st z t (.success body) d).state t2 -
          (applyRateLimit st t + d) < st.cache_timeout →
      (getWeather (getWeather st z t (.success body) d).state z t2
          net2 d2).madeRequest = false ∧
      (getWeather (getWeather st z t (.success body) d).state z t2
          net2 d2).result = .malformedResponse f) := by
  rw [getWeather_miss_success st z t d body hz hmiss herr]
  refine ⟨?_, ?_, ?_, ?_, ?_⟩
  · show parseWeatherData z body = .malformedResponse f
    simp [parseWeatherData, hparse]
  · exact dictGet_insert_self _ z _
  · exact dictGet_insert_self _ z _
  · rfl
  · intro t2 net2 d2 hin
    set S : ClientState :=
      { (getCachedWeather st z (applyRateLimit st t)).2 with
          weather_cache :=
            dictInsert (getCachedWeather st z (applyRateLimit st t)).2.weather_cache
              z body,
          cache_timestamps :=
            dictInsert
              (getCachedWeather st z (applyRateLimit st t)).2.cache_timestamps
              z (applyRateLimit st t + d),
          last_request_time := applyRateLimit st t + d } with hS
    have hget : dictGet S.weather_cache z = some body := by
      rw [hS]
      exact dictGet_insert_self _ z _
    have hts0 : dictGet S.cache_timestamps z =
        some (applyRateLimit st t + d) := by
      rw [hS]
      exact dictGet_insert_self _ z _
    have hct : S.cache_timeout = st.cache_timeout := by
      rw [hS]
      exact getCachedWeather_cache_timeout st z (applyRateLimit st t)
    have hcond : applyRateLimit S t2 -
        (dictGet S.cache_timestamps z).getD 0 < S.cache_timeout := by
      rw [hts0, Option.getD_some, hct]
      exact hin
    have hhit2 : (getCachedWeather S z (applyRateLimit S t2)).1 =
        some body := by
      rw [getCachedWeather_valid S z (applyRateLimit S t2) body hget hcond]
    rw [getWeather_hit S z t2 d2 net2 body hz hhit2]
    refine ⟨rfl, ?_⟩
    show parseWeatherData z body = .malformedResponse f
    simp [parseWeatherData, hparse]

/-- Witness for C1: a fresh client and the body missing
`current.temperature`; the follow-up call is 10 seconds later. -/
theorem c1_witness :
    (getWeather freshClient "12345" 10 (.success bodyMissingTemp) 0).result =
      .malformedResponse "temperature" ∧
    dictGet (getWeather freshClient "12345" 10
        (.success bodyMissingTemp) 0).state.weather_cache "12345" =
      some bodyMissingTemp ∧
    dictGet (getWeather freshClient "12345" 10
        (.success bodyMissingTemp) 0).state.cache_timestamps "12345" =
      some (applyRateLimit freshClient 10 + 0) ∧
    (getWeather freshClient "12345" 10
        (.success bodyMissingTemp) 0).state.last_request_time =
      applyRateLimit freshClient 10 + 0 ∧
    (∀ t2 net2 d2,
      applyRateLimit (getWeather freshClient "12345" 10
          (.success bodyMissingTemp) 0).state t2 -
          (applyRateLimit freshClient 10 + 0) < freshClient.cache_timeout →
      (getWeather (getWeather freshClient "12345" 10
          (.success bodyMissingTemp) 0).state "12345" t2
          net2 d2).madeRequest = false ∧
      (getWeather (getWeather freshClient "12345" 10
          (.success bodyMissingTemp) 0).state "12345" t2
          net2 d2).result = .malformedResponse "temperature") :=
  c1_malformed_caches_amended freshClient "12345" 10 0 bodyMissingTemp
    "temperature" (by decide) rfl rfl rfl

/-! ## C8: `set_favorite` on a missing ZIP -/

/-- A stored location used by concrete instances. -/
def sampleEntry : LocEntry :=
  { name := "Test City", added_at := 10, is_favorite := false }

/-- A one-entry store used by concrete instances. -/
def sampleLocs : LocMap := [("12345", sampleEntry)]

/-- C8: `set_favorite` on a validly formatted but unstored ZIP raises
NotFoundError (`KeyError`) with the in-memory map and the file untouched
(the raise happens before any mutation or write); on a stored ZIP it
rewrites only the `is_favorite` flag of that entry — name, `added_at` and
every other key unchanged — and persists the updated map. -/
theorem c8_set_favorite (locs : LocMap) (file : FileData) (z : String)
    (b : Bool) (hz : LocationStorage.validateZipCode z = true) :
    (dictGet locs z = none →
      setFavorite locs file z b = (.error (.notFoundError z), locs, file)) ∧
    (∀ ent, dictGet locs z = some ent →
      setFavorite locs file z b =
        (.ok true, dictInsert locs z { ent with is_favorite := b },
         .value (dictInsert locs z { ent with is_favorite := b })) ∧
      dictGet (dictInsert locs z { ent with is_favorite := b }) z =
        some { name := ent.name, added_at := ent.added_at,
               is_favorite := b } ∧
      (∀ w, w ≠ z →
        dictGet (dictInsert locs z { ent with is_favorite := b }) w =
          dictGet locs w)) := by
  constructor
  · intro hnone
    simp [setFavorite, hz, hnone]
  · intro ent hent
    refine ⟨by simp [setFavorite, hz, hent], ?_, ?_⟩
    · rw [dictGet_insert_self]
    · intro w hw
      exact dictGet_insert_ne locs z w _ hw

/-- Witness for C8: on the one-entry store, `set_favorite "54321"` fails
with NotFoundError and leaves store and file alone. -/
theorem c8_witness :
    setFavorite sampleLocs .missing "54321" true =
      (.error (.notFoundError "54321"), sampleLocs, .missing) :=
  (c8_set_favorite sampleLocs .missing "54321" true (by decide)).1 rfl

/-! ## C9: persistence round-trip -/

/-- C9: after a successful `add_location z n`, the persisted file decodes
(via a fresh `LocationStorage` construction) to exactly the in-memory map,
whose key list contains `z` and whose entry for `z` carries the name `n`. -/
theorem c9_round_trip (locs : LocMap) (file : FileData) (z n : String)
    (now : ℚ) (hz : LocationStorage.validateZipCode z = true)
    (hn : n ≠ "") :
    addLocation locs file z n now =
      (.ok true,
       dictInsert locs z { name := n, added_at := now, is_favorite := false },
       .value (dictInsert locs z
         { name := n, added_at := now, is_favorite := false })) ∧
    initStorage (.value (dictInsert locs z
        { name := n, added_at := now, is_favorite := false })) =
      .ok (dictInsert locs z
        { name := n, added_at := now, is_favorite := false }) ∧
    z ∈ getLocations (dictInsert locs z
        { name := n, added_at := now, is_favorite := false }) ∧
    dictGet (dictInsert locs z
        { name := n, added_at := now, is_favorite := false }) z =
      some { name := n, added_at := now, is_favorite := false } := by
  refine ⟨by simp [addLocation, hz, hn], rfl, ?_, ?_⟩
  · exact mem_getLocations_dictInsert locs z _
  · exact dictGet_insert_self locs z _

/-- The entry `add_location "94107" "San Francisco"` writes at time 20. -/
def sfEntry : LocEntry :=
  { name := "San Francisco", added_at := 20, is_favorite := false }

/-- Witness for C9: adding `"94107" / "San Francisco"` to an empty store
backed by a missing file. -/
theorem c9_witness :
    addLocation [] .missing "94107" "San Francisco" 20 =
      (.ok true, [("94107", sfEntry)], .value [("94107", sfEntry)]) ∧
    initStorage (.value [("94107", sfEntry)]) = .ok [("94107", sfEntry)] ∧
    "94107" ∈ getLocations [("94107", sfEntry)] ∧
    dictGet [("94107", sfEntry)] "94107" = some sfEntry := by
  have h := c9_round_trip [] .missing "94107" "San Francisco" 20
    (by decide) (by decide)
  simpa [dictInsert, sfEntry] using h

/-! ## C10: `add_location` overwrites an existing ZIP -/

/-- C10: when `z` is already stored, `add_location z n` replaces the whole
entry: the name becomes `n`, `added_at` is reset to the call time, and
`is_favorite` is reset to `false` — even when the old entry was a
favorite (the quantified `ent` covers `is_favorite = true`). -/
theorem c10_add_overwrites (locs : LocMap) (file : FileData) (z n : String)
    (now : ℚ) (ent : LocEntry) (hz : LocationStorage.validateZipCode z = true)
    (hn : n ≠ "") (hent : dictGet locs z = some ent) :
    (addLocation locs file z n now).1 = .ok true ∧
    dictGet (addLocation locs file z n now).2.1 z =
      some { name := n, added_at := now, is_favorite := false } := by
  constructor
  · simp [addLocation, hz, hn]
  · simp only [addLocation, hz, if_true, hn, if_false]
    simpa using dictGet_insert_self locs z _

/-- A stored favorite entry overwritten in the C10 witness. -/
def oldFavoriteEntry : LocEntry :=
  { name := "Old Town", added_at := 5, is_favorite := true }

/-- The entry that replaces `oldFavoriteEntry` in the C10 witness. -/
def replacedEntry : LocEntry :=
  { name := "New Name", added_at := 42, is_favorite := false }

/-! ## C6: TTL caching and lazy eviction -/

/-- C6: with no prior cache entry for `z`, a first successful call issues
the network request and caches the body at its completion time `e1`; a
second call whose throttled lookup still falls within `cache_timeout` of
`e1` issues no request, returns the same reading and leaves the state
untouched — so the two calls issue exactly one request in total; a third
call at least `cache_timeout` after `e1` finds the entry expired, evicts
it at that lookup, and issues a second network request; and no call for
one key ever evicts another key's entry (no proactive sweep).  The side
condition `min_request_interval < cache_timeout` holds of the code's
configuration (interval hardcoded to 1 second, default TTL 300 seconds). -/
theorem c6_cache_ttl (st : ClientState) (z : String) (body : Json)
    (w : WeatherData) (t1 d1 t2 d2 t3 d3 : ℚ) (net2 : NetOutcome)
    (hz : validateZipCode z = true)
    (hnotin : dictGet st.weather_cache z = none)
    (herr : body.get? "error" = none)
    (hparse : parseWeatherTry z body = .ok w)
    (hin : t2 - (applyRateLimit st t1 + d1) < st.cache_timeout)
    (hm : st.min_request_interval < st.cache_timeout)
    (ht3 : applyRateLimit st t1 + d1 + st.cache_timeout ≤ t3) :
    (getWeather st z t1 (.success body) d1).madeRequest = true ∧
    (getWeather st z t1 (.success body) d1).result = .ok w ∧
    dictGet (getWeather st z t1
        (.success body) d1).state.weather_cache z = some body ∧
    dictGet (getWeather st z t1
        (.success body) d1).state.cache_timestamps z =
      some (applyRateLimit st t1 + d1) ∧
    (getWeather (getWeather st z t1 (.success body) d1).state z t2
        net2 d2).madeRequest = false ∧
    (getWeather (getWeather st z t1 (.success body) d1).state z t2
        net2 d2).result = .ok w ∧
    (getWeather (getWeather st z t1 (.success body) d1).state z t2
        net2 d2).state = (getWeather st z t1 (.success body) d1).state ∧
    (getWeather (getWeather st z t1 (.success body) d1).state z t3
        .failure d3).madeRequest = true ∧
    dictGet (getWeather (getWeather st z t1 (.success body) d1).state z t3
        .failure d3).state.weather_cache z = none ∧
    dictGet (getWeather (getWeather st z t1 (.success body) d1).state z t3
        .failure d3).state.cache_timestamps z = none ∧
    (∀ (stA : ClientState) (zA : String) (tA dA : ℚ) (netA : NetOutcome)
        (k : String), k ≠ zA →
      dictGet (getWeather stA zA tA netA dA).state.weather_cache k =
        dictGet stA.weather_cache k ∧
      dictGet (getWeather stA zA tA netA dA).state.cache_timestamps k =
        dictGet stA.cache_timestamps k) := by
  set T : ClientState :=
    { st with
        weather_cache := dictInsert st.weather_cache z body,
        cache_timestamps :=
          dictInsert st.cache_timestamps z (applyRateLimit st t1 + d1),
        last_request_time := applyRateLimit st t1 + d1 } with hT
  have hfirst : getWeather st z t1 (.success body) d1 =
      { result := parseWeatherData z body, state := T,
        madeRequest := true, sleepTime := applyRateLimit st t1 - t1 } := by
    rw [hT]
    exact getWeather_fresh_success st z t1 d1 body hz hnotin herr
  have hTget : dictGet T.weather_cache z = some body := by
    rw [hT]
    exact dictGet_insert_self st.weather_cache z body
  have hTts : dictGet T.cache_timestamps z =
      some (applyRateLimit st t1 + d1) := by
    rw [hT]
    exact dictGet_insert_self st.cache_timestamps z _
  have hTct : T.cache_timeout = st.cache_timeout := by rw [hT]
  have hTlast : T.last_request_time = applyRateLimit st t1 + d1 := by
    rw [hT]
  have hTmin : T.min_request_interval = st.min_request_interval := by
    rw [hT]
  have hu2 : applyRateLimit T t2 - (applyRateLimit st t1 + d1) <
      st.cache_timeout := by
    have h := applyRateLimit_sub_lt T t2 st.cache_timeout
      (by rw [hTlast]; exact hin) (by rw [hTmin]; exact hm)
    rwa [hTlast] at h
  have hhit2 : (getCachedWeather T z (applyRateLimit T t2)).1 =
      some body := by
    rw [getCachedWeather_valid T z (applyRateLimit T t2) body hTget
      (by rw [hTts, Option.getD_some, hTct]; exact hu2)]
  have hsecond : getWeather T z t2 net2 d2 =
      { result := parseWeatherData z body, state := T,
        madeRequest := false, sleepTime := applyRateLimit T t2 - t2 } :=
    getWeather_hit T z t2 d2 net2 body hz hhit2
  have hu3 : applyRateLimit T t3 = t3 := by
    apply applyRateLimit_of_ge
    rw [hTlast, hTmin]
    linarith
  have hexp : getCachedWeather T z (applyRateLimit T t3) =
      (none,
       { T with weather_cache := dictDelete T.weather_cache z,
                cache_timestamps := dictDelete T.cache_timestamps z }) := by
    apply getCachedWeather_expired T z _ body hTget
    rw [hTts, Option.getD_some, hTct, hu3]
    linarith
  have hmiss3 : (getCachedWeather T z (applyRateLimit T t3)).1 = none := by
    rw [hexp]
  have hthird : getWeather T z t3 .failure d3 =
      { result := .networkError,
        state := (getCachedWeather T z (applyRateLimit T t3)).2,
        madeRequest := true, sleepTime := applyRateLimit T t3 - t3 } :=
    getWeather_miss_failure T z t3 d3 hz hmiss3
  have hok : parseWeatherData z body = .ok w := by
    simp [parseWeatherData, hparse]
  refine ⟨?_, ?_, ?_, ?_, ?_, ?_, ?_, ?_, ?_, ?_, ?_⟩
  · rw [hfirst]
  · rw [hfirst]
    show parseWeatherData z body = .ok w
    exact hok
  · rw [hfirst]
    show dictGet T.weather_cache z = some body
    exact hTget
  · rw [hfirst]
    show dictGet T.cache_timestamps z = some (applyRateLimit st t1 + d1)
    exact hTts
  · rw [hfirst]
    show (getWeather T z t2 net2 d2).madeRequest = false
    rw [hsecond]
  · rw [hfirst]
    show (getWeather T z t2 net2 d2).result = .ok w
    rw [hsecond]
    exact hok
  · rw [hfirst]
    show (getWeather T z t2 net2 d2).state = T
    rw [hsecond]
  · rw [hfirst]
    show (getWeather T z t3 .failure d3).madeRequest = true
    rw [hthird]
  · rw [hfirst]
    show dictGet (getWeather T z t3 .failure d3).state.weather_cache z =
      none
    rw [hthird]
    show dictGet (getCachedWeather T z
      (applyRateLimit T t3)).2.weather_cache z = none
    rw [hexp]
    exact dictGet_delete_self T.weather_cache z
  · rw [hfirst]
    show dictGet
      (getWeather T z t3 .failure d3).state.cache_timestamps z = none
    rw [hthird]
    show dictGet (getCachedWeather T z
      (applyRateLimit T t3)).2.cache_timestamps z = none
    rw [hexp]
    exact dictGet_delete_self T.cache_timestamps z
  · exact fun stA zA tA dA netA k hk =>
      getWeather_other_keys stA zA tA dA netA k hk

/-- Witness for C6: a fresh client, the full scenario body, calls at times
10, 20 and 400 with the default 300-second TTL. -/
theorem c6_witness :
    (getWeather freshClient "12345" 10 (.success fullBody) 0).madeRequest =
      true ∧
    (getWeather freshClient "12345" 10 (.success fullBody) 0).result =
      .ok fullReading ∧
    dictGet (getWeather freshClient "12345" 10
        (.success fullBody) 0).state.weather_cache "12345" =
      some fullBody ∧
    dictGet (getWeather freshClient "12345" 10
        (.success fullBody) 0).state.cache_timestamps "12345" =
      some (applyRateLimit freshClient 10 + 0) ∧
    (getWeather (getWeather freshClient "12345" 10
        (.success fullBody) 0).state "12345" 20
        .failure 0).madeRequest = false ∧
    (getWeather (getWeather freshClient "12345" 10
        (.success fullBody) 0).state "12345" 20
        .failure 0).result = .ok fullReading ∧
    (getWeather (getWeather freshClient "12345" 10
        (.success fullBody) 0).state "12345" 20 .failure 0).state =
      (getWeather freshClient "12345" 10 (.success fullBody) 0).state ∧
    (getWeather (getWeather freshClient "12345" 10
        (.success fullBody) 0).state "12345" 400
        .failure 0).madeRequest = true ∧
    dictGet (getWeather (getWeather freshClient "12345" 10
        (.success fullBody) 0).state "12345" 400
        .failure 0).state.weather_cache "12345" = none ∧
    dictGet (getWeather (getWeather freshClient "12345" 10
        (.success fullBody) 0).state "12345" 400
        .failure 0).state.cache_timestamps "12345" = none ∧
    (∀ (stA : ClientState) (zA : String) (tA dA : ℚ) (netA : NetOutcome)
        (k : String), k ≠ zA →
      dictGet (getWeather stA zA tA netA dA).state.weather_cache k =
        dictGet stA.weather_cache k ∧
      dictGet (getWeather stA zA tA netA dA).state.cache_timestamps k =
        dictGet stA.cache_timestamps k) :=
  c6_cache_ttl freshClient "12345" fullBody fullReading 10 0 20 0 400 0
    .failure (by decide) rfl rfl parse_fullBody
    (by rw [freshClient_rate]; norm_num [freshClient])
    (by norm_num [freshClient])
    (by rw [freshClient_rate]; norm_num [freshClient])

/-- Witness for C10: overwriting a stored favorite entry resets the flag. -/
theorem c10_witness :
    (addLocation [("12345", oldFavoriteEntry)]
      (.value [("12345", oldFavoriteEntry)]) "12345" "New Name" 42).1 =
        .ok true ∧
    dictGet (addLocation [("12345", oldFavoriteEntry)]
      (.value [("12345", oldFavoriteEntry)]) "12345" "New Name" 42).2.1
        "12345" = some replacedEntry :=
  c10_add_overwrites _ _ "12345" "New Name" 42 oldFavoriteEntry
    (by decide) (by decide) rfl

end WeatherApp
